import Mathlib

/-!
Verification development for the local-storage-cache desktop plugin
(Windows and Linux platform implementations).

The embedding models, faithfully to the C++ sources:
  * the dynamically typed host values (`EncodableValue` on Windows,
    `FlValue` on Linux),
  * the SQLite runtime column values returned by a cursor (`SqliteCell`),
  * `DatabaseManager::Insert` / `Query` / `Update` / `Delete` for both
    platforms, with the SQLite C API abstracted as explicitly passed
    `prepare` / `step` / `changes` / `last_insert_rowid` functions over an
    abstract database-state type, and
  * the plugin method-call handler (`HandleMethodCall` on Windows).
-/

namespace LocalStorageCache

/-- Dynamically typed value of the Windows host framework
(`flutter::EncodableValue`): null, bool, 32-bit int, 64-bit int, double,
string, map, list.  Doubles are carried as an opaque bit payload; the code
only ever copies them. -/
inductive EncodableValue where
  | null : EncodableValue
  | boolean (b : Bool) : EncodableValue
  | int32 (i : Int) : EncodableValue
  | int64 (i : Int) : EncodableValue
  | double (bits : Nat) : EncodableValue
  | str (s : String) : EncodableValue
  | map (entries : List (EncodableValue × EncodableValue)) : EncodableValue
  | list (items : List EncodableValue) : EncodableValue

/-- Dynamically typed value of the Linux host framework (`FlValue`). -/
inductive FlValue where
  | null : FlValue
  | boolean (b : Bool) : FlValue
  | int (i : Int) : FlValue
  | float (bits : Nat) : FlValue
  | str (s : String) : FlValue
  | map (entries : List (FlValue × FlValue)) : FlValue
  | list (items : List FlValue) : FlValue

/-- Runtime-typed SQLite column value as observed through
`sqlite3_column_type` / `sqlite3_column_int64` / `sqlite3_column_double` /
`sqlite3_column_text`.  `blob` stands for the remaining runtime kind, which
the projection code does not recognise. -/
inductive SqliteCell where
  | integer (i : Int) : SqliteCell
  | float (bits : Nat) : SqliteCell
  | text (s : String) : SqliteCell
  | null : SqliteCell
  | blob (bytes : List Nat) : SqliteCell

/-- A parameter as bound onto a prepared statement by the `sqlite3_bind_*`
family. -/
inductive BoundParam where
  | text (s : String) : BoundParam
  | int (i : Int) : BoundParam
  | int64 (i : Int) : BoundParam
  | double (bits : Nat) : BoundParam
  | null : BoundParam

/-- Result of `sqlite3_step`. -/
inductive StepResult where
  | row : StepResult
  | done : StepResult
  | error : StepResult

/-- Source `DatabaseManager::GetPrefixedTableName` (identical on both platforms):
`space + "_" + table_name`. -/
def GetPrefixedTableName (table_name : String) (space : String) : String :=
  space ++ "_" ++ table_name

/-- Accumulator of the Windows `Insert` column/placeholder building loop:
the `first` flag and the two output streams. -/
structure InsertAcc where
  first : Bool
  columns : String
  placeholders : String

/-- One iteration of the Windows `Insert` building loop over a map entry:
emit `", "` separators unless first, clear the flag, and append the key and
a `"?"` only when the key is a string. -/
def insertAccStep (acc : InsertAcc) (pair : EncodableValue × EncodableValue) :
    InsertAcc :=
  let acc1 : InsertAcc :=
    if acc.first then acc
    else { acc with
            columns := acc.columns ++ ", ",
            placeholders := acc.placeholders ++ ", " }
  let acc2 : InsertAcc := { acc1 with first := false }
  match pair.1 with
  | .str k =>
      { acc2 with
          columns := acc2.columns ++ k,
          placeholders := acc2.placeholders ++ "?" }
  | _ => acc2

/-- The Windows `Insert` building loop over the whole data map. -/
def insertAccFold (data : List (EncodableValue × EncodableValue)) : InsertAcc :=
  data.foldl insertAccStep ⟨true, "", ""⟩

/-- The INSERT statement text built by the Windows
`DatabaseManager::Insert`. -/
def windowsInsertSql (table_name : String) (space : String)
    (data : List (EncodableValue × EncodableValue)) : String :=
  "INSERT INTO " ++ GetPrefixedTableName table_name space ++ " (" ++
    (insertAccFold data).columns ++ ") VALUES (" ++
    (insertAccFold data).placeholders ++ ")"

/-- The Windows `Insert` value-binding switch: string, int32, int64, double,
bool (as 0/1 int), anything else as null. -/
def bindValue : EncodableValue → BoundParam
  | .str s => .text s
  | .int32 i => .int i
  | .int64 i => .int64 i
  | .double bits => .double bits
  | .boolean b => .int (if b then 1 else 0)
  | _ => .null

/-- The parameter vector bound by the Windows `Insert` binding loop, which
runs over every map entry in iteration order at indices 1..n. -/
def windowsInsertBinds (data : List (EncodableValue × EncodableValue)) :
    List BoundParam :=
  data.map (fun pair => bindValue pair.2)

/-- Windows `DatabaseManager::Insert`, with the SQLite engine abstracted:
`prepare` may fail, `stepWithBinds` consumes the bound parameter vector and
steps once, `lastRowid` is `sqlite3_last_insert_rowid`.  Returns -1 when the
handle is null, preparation fails, or the step does not report DONE. -/
def windowsInsert {Db Stmt : Type} (prepare : Db → String → Option Stmt)
    (stepWithBinds : Db → Stmt → List BoundParam → StepResult × Db)
    (lastRowid : Db → Int) (database : Option Db) (table_name : String)
    (data : List (EncodableValue × EncodableValue)) (space : String) : Int :=
  match database with
  | none => -1
  | some db =>
    match prepare db (windowsInsertSql table_name space data) with
    | none => -1
    | some st =>
      match stepWithBinds db st (windowsInsertBinds data) with
      | (.done, db2) => lastRowid db2
      | (_, _) => -1

/-- The INSERT statement text built by the Linux
`DatabaseManager::Insert`: a `DEFAULT VALUES` statement that mentions no
column and no placeholder. -/
def linuxInsertSql (table_name : String) (space : String) : String :=
  "INSERT INTO " ++ GetPrefixedTableName table_name space ++ " DEFAULT VALUES"

/-- Linux `DatabaseManager::Insert`: requires an open handle and a map-typed
`data`, prepares the `DEFAULT VALUES` statement, steps once, and never binds
anything (it takes no bind function at all). -/
def linuxInsert {Db Stmt : Type} (prepare : Db → String → Option Stmt)
    (step : Db → Stmt → StepResult × Db) (lastRowid : Db → Int)
    (database : Option Db) (table_name : String) (data : FlValue)
    (space : String) : Int :=
  match database, data with
  | some db, .map _ =>
    match prepare db (linuxInsertSql table_name space) with
    | none => -1
    | some st =>
      match step db st with
      | (.done, db2) => lastRowid db2
      | (_, _) => -1
  | _, _ => -1

/-- The `switch (column_type)` of `DatabaseManager::Query` (both platforms):
integer → 64-bit signed integer, float → double, text → a copy of the text,
null and any unrecognised kind → null. -/
def projectCell : SqliteCell → EncodableValue
  | .integer i => .int64 i
  | .float bits => .double bits
  | .text s => .str s
  | .null => .null
  | .blob _ => .null

/-- The assignment `row[EncodableValue(column_name)] = value` on an association-list view of
the row map: assign if the key is present, otherwise append. -/
def mapSet (row : List (String × EncodableValue)) (k : String)
    (v : EncodableValue) : List (String × EncodableValue) :=
  match row with
  | [] => [(k, v)]
  | (k', v') :: rest =>
      if k' = k then (k', v) :: rest else (k', v') :: mapSet rest k v

/-- The inner `for (i = 0; i < column_count; i++)` loop of `Query`: read the
column name and runtime kind of each cursor column in order and store the
projected value into the row map. -/
def buildRowLoop (row : List (String × EncodableValue)) :
    List (String × SqliteCell) → List (String × EncodableValue)
  | [] => row
  | c :: rest => buildRowLoop (mapSet row c.1 (projectCell c.2)) rest

/-- The outer `while (sqlite3_step(statement) == SQLITE_ROW)` loop of
`Query`: one output record per cursor row, in emission order, each built by
the inner column loop starting from an empty row map. -/
def queryRows : List (List (String × SqliteCell)) →
    List (List (String × EncodableValue))
  | [] => []
  | r :: rs => buildRowLoop [] r :: queryRows rs

/-- Source `DatabaseManager::Query` (both platforms), with statement preparation
abstracted: `prepare db sql = none` models `sqlite3_prepare_v2` failure and
`some rows` models a statement whose cursor emits `rows`.  A null handle or
a failed preparation returns the empty list. -/
def Query {Db : Type}
    (prepare : Db → String → Option (List (List (String × SqliteCell))))
    (database : Option Db) (sql : String) :
    List (List (String × EncodableValue)) :=
  match database with
  | none => []
  | some db =>
    match prepare db sql with
    | none => []
    | some rows => queryRows rows

/-- Source `DatabaseManager::Update` (both platforms): null handle → 0, preparation
failure → 0, otherwise step the statement once and return
`sqlite3_changes` of the resulting database state, together with that
state.  The `arguments` parameter is accepted but never bound. -/
def Update {Db Stmt : Type} (prepare : Db → String → Option Stmt)
    (step : Db → Stmt → Db) (changes : Db → Int) (database : Option Db)
    (sql : String) (arguments : List EncodableValue) : Int × Option Db :=
  match database with
  | none => (0, none)
  | some db =>
    match prepare db sql with
    | none => (0, some db)
    | some st =>
      let db2 := step db st
      (changes db2, some db2)

/-- Source `DatabaseManager::Delete` (both platforms): `return Update(sql,
arguments);`. -/
def Delete {Db Stmt : Type} (prepare : Db → String → Option Stmt)
    (step : Db → Stmt → Db) (changes : Db → Int) (database : Option Db)
    (sql : String) (arguments : List EncodableValue) : Int × Option Db :=
  Update prepare step changes database sql arguments

/-- Outcome of one plugin method call, as delivered through
`flutter::MethodResult`: `Success` with an optional payload, `Error` with a
code and a message, or `NotImplemented`. -/
inductive MethodResponse where
  | success (value : Option EncodableValue) : MethodResponse
  | error (code : String) (message : String) : MethodResponse
  | notImplemented : MethodResponse

/-- The plugin object state: the `database_manager_` member, null while
Closed.  `M` abstracts the concrete `DatabaseManager` object. -/
structure PluginState (M : Type) where
  database_manager : Option M

/-- The lookup `arguments->find(EncodableValue(name))` on the argument map: the first
entry whose key is the string `name`. -/
def mapLookupStr (m : List (EncodableValue × EncodableValue))
    (name : String) : Option EncodableValue :=
  match m with
  | [] => none
  | (key, v) :: rest =>
    match key with
    | .str s => if s = name then some v else mapLookupStr rest name
    | _ => mapLookupStr rest name

/-- The `space_str` computation of the Windows insert branch: use the
`space` argument when it is present and a string, otherwise the literal
`"default"`. -/
def resolveSpace (space_arg : Option EncodableValue) : String :=
  match space_arg with
  | some (.str s) => s
  | _ => "default"

/-- Source `LocalStorageCacheWindowsPlugin::HandleMethodCall`, parametric over the
manager type `M` and the manager operations: `mkManager` is the
`DatabaseManager` constructor, `managerInit` its `Initialize`,
`managerInsert` its `Insert` (returning a rowid or -1), `managerQuery` its
`Query`.  Returns the method response and the plugin state after the
call. -/
def handleMethodCall {M : Type} (mkManager : String → M)
    (managerInit : M → Bool)
    (managerInsert : M → String → List (EncodableValue × EncodableValue) →
      String → Int)
    (managerQuery : M → String → List EncodableValue)
    (st : PluginState M) (method : String) (args : EncodableValue) :
    MethodResponse × PluginState M :=
  if method = "initialize" then
    match args with
    | .map m =>
      match mapLookupStr m "databasePath" with
      | none => (.error "INVALID_ARGS" "databasePath is required", st)
      | some v =>
        match v with
        | .str path =>
          let dm := mkManager path
          if managerInit dm then (.success none, ⟨some dm⟩)
          else (.error "INIT_ERROR" "Failed to initialize database",
                ⟨some dm⟩)
        | _ => (.error "INVALID_ARGS" "databasePath must be a string", st)
    | _ => (.error "INVALID_ARGS" "Invalid arguments", st)
  else if method = "close" then
    match st.database_manager with
    | some _ => (.success none, ⟨none⟩)
    | none => (.success none, st)
  else if method = "insert" then
    match st.database_manager with
    | none => (.error "NOT_INITIALIZED" "Database not initialized", st)
    | some dm =>
      match args with
      | .map m =>
        match mapLookupStr m "tableName", mapLookupStr m "data" with
        | some tv, some dv =>
          match tv, dv with
          | .str table, .map dataMap =>
            let space_str := resolveSpace (mapLookupStr m "space")
            let id := managerInsert dm table dataMap space_str
            if 0 ≤ id then (.success (some (.int64 id)), st)
            else (.error "INSERT_ERROR" "Failed to insert data", st)
          | _, _ => (.error "INVALID_ARGS" "Invalid argument types", st)
        | _, _ =>
            (.error "INVALID_ARGS" "tableName and data are required", st)
      | _ => (.error "INVALID_ARGS" "Invalid arguments", st)
  else if method = "query" then
    match st.database_manager with
    | none => (.error "NOT_INITIALIZED" "Database not initialized", st)
    | some dm =>
      match args with
      | .map m =>
        match mapLookupStr m "sql" with
        | none => (.error "INVALID_ARGS" "sql is required", st)
        | some sv =>
          match sv with
          | .str sql => (.success (some (.list (managerQuery dm sql))), st)
          | _ => (.error "INVALID_ARGS" "sql must be a string", st)
      | _ => (.error "INVALID_ARGS" "Invalid arguments", st)
  else if method = "saveSecureKey" then
    match args with
    | .map m =>
      match mapLookupStr m "key", mapLookupStr m "value" with
      | some _, some _ => (.success none, st)
      | _, _ => (.error "INVALID_ARGS" "key and value are required", st)
    | _ => (.error "INVALID_ARGS" "Invalid arguments", st)
  else if method = "isBiometricAvailable" then
    (.success (some (.boolean false)), st)
  else (.notImplemented, st)

/-! ### Helper lemmas about the query row-building loop -/

/-- Storing a fresh key into the row map appends it at the end. -/
lemma mapSet_eq_append (row : List (String × EncodableValue)) (k : String)
    (v : EncodableValue) (h : ∀ p ∈ row, p.1 ≠ k) :
    mapSet row k v = row ++ [(k, v)] := by
  induction row with
  | nil => rfl
  | cons p rest ih =>
    obtain ⟨k', v'⟩ := p
    have hk : k' ≠ k := h (k', v') (List.mem_cons_self _ _)
    simp only [mapSet, if_neg hk, List.cons_append, List.cons.injEq, true_and]
    exact ih (fun q hq => h q (List.mem_cons_of_mem _ hq))

/-- With column names distinct and fresh for the accumulated row map, the
imperative column loop produces exactly one projected entry per cursor
column, in column order. -/
lemma buildRowLoop_eq (cols : List (String × SqliteCell)) :
    ∀ row : List (String × EncodableValue),
    (∀ p ∈ row, ∀ c ∈ cols, p.1 ≠ c.1) →
    (cols.map Prod.fst).Nodup →
    buildRowLoop row cols =
      row ++ cols.map (fun c => (c.1, projectCell c.2)) := by
  induction cols with
  | nil => intro row _ _; simp [buildRowLoop]
  | cons c rest ih =>
    intro row hdis hnd
    have hfresh : ∀ p ∈ row, p.1 ≠ c.1 :=
      fun p hp => hdis p hp c (List.mem_cons_self _ _)
    have hnd' : (rest.map Prod.fst).Nodup :=
      (List.nodup_cons.mp hnd).2
    have hhead : c.1 ∉ rest.map Prod.fst := (List.nodup_cons.mp hnd).1
    simp only [buildRowLoop]
    rw [mapSet_eq_append row c.1 (projectCell c.2) hfresh]
    rw [ih (row ++ [(c.1, projectCell c.2)])
      (by
        intro p hp d hd
        rcases List.mem_append.mp hp with hp | hp
        · exact hdis p hp d (List.mem_cons_of_mem _ hd)
        · have : p = (c.1, projectCell c.2) := List.mem_singleton.mp hp
          subst this
          intro hcontra
          exact hhead (hcontra ▸ List.mem_map_of_mem Prod.fst hd))
      hnd']
    simp

/-! ### Claim theorems: query projection and query error swallowing -/

/-- Claim C2: stepping the cursor to completion yields one record per row in
cursor emission order, and each column's projected value is determined
solely by its runtime kind — integer kind gives a 64-bit signed integer,
float kind a double, text kind a copy of the text, and null or any
unrecognised kind gives null, with no coercion between kinds. -/
theorem query_typed_projection
    (rows : List (List (String × SqliteCell)))
    (h : ∀ r ∈ rows, (r.map Prod.fst).Nodup) :
    queryRows rows =
      rows.map (fun r => r.map (fun c => (c.1, projectCell c.2)))
    ∧ (∀ i, projectCell (.integer i) = .int64 i)
    ∧ (∀ bits, projectCell (.float bits) = .double bits)
    ∧ (∀ s, projectCell (.text s) = .str s)
    ∧ projectCell .null = .null
    ∧ (∀ bytes, projectCell (.blob bytes) = .null) := by
  refine ⟨?_, fun _ => rfl, fun _ => rfl, fun _ => rfl, rfl, fun _ => rfl⟩
  induction rows with
  | nil => rfl
  | cons r rs ih =>
    simp only [queryRows, List.map_cons]
    rw [buildRowLoop_eq r [] (by simp) (h r (List.mem_cons_self _ _))]
    rw [ih (fun q hq => h q (List.mem_cons_of_mem _ hq))]
    simp

/-- Witness for C2 at a concrete five-column cursor row of every runtime
kind. -/
theorem query_typed_projection_witness :
    queryRows
      [[("a", .integer 3), ("b", .text "x"), ("c", .null),
        ("d", .float 5), ("e", .blob [1, 2])]] =
      [[("a", .int64 3), ("b", .str "x"), ("c", EncodableValue.null),
        ("d", .double 5), ("e", EncodableValue.null)]] :=
  (query_typed_projection
    [[("a", .integer 3), ("b", .text "x"), ("c", .null),
      ("d", .float 5), ("e", .blob [1, 2])]]
    (by decide)).1

/-- Claim C3: `Query` never signals an error on malformed SQL — a failed
statement preparation yields the empty record sequence, a prepared
statement that matches no rows also yields the empty record sequence, and
the two outcomes are the same value, indistinguishable to the caller. -/
theorem query_never_errors {Db : Type}
    (prepare : Db → String → Option (List (List (String × SqliteCell))))
    (db : Db) (badSql okSql : String)
    (h1 : prepare db badSql = none)
    (h2 : prepare db okSql = some []) :
    Query prepare (some db) badSql = []
    ∧ Query prepare (some db) okSql = []
    ∧ Query prepare (some db) badSql = Query prepare (some db) okSql := by
  simp [Query, h1, h2, queryRows]

/-- Witness for C3: a concrete engine that fails to prepare one SQL text and
prepares the other to an empty cursor. -/
theorem query_never_errors_witness :
    Query (fun (_ : Unit) (s : String) =>
        if s = "SELECT 1" then some [] else none)
      (some ()) "NOT SQL" = []
    ∧ Query (fun (_ : Unit) (s : String) =>
        if s = "SELECT 1" then some [] else none)
      (some ()) "SELECT 1" = []
    ∧ Query (fun (_ : Unit) (s : String) =>
        if s = "SELECT 1" then some [] else none)
      (some ()) "NOT SQL" =
      Query (fun (_ : Unit) (s : String) =>
        if s = "SELECT 1" then some [] else none)
      (some ()) "SELECT 1" :=
  query_never_errors _ () "NOT SQL" "SELECT 1" rfl rfl

/-! ### Claim theorems: plugin state machine -/

/-- Claim C4: while the handle is Closed (`database_manager_` null, before
any successful call to the initialization method or after close), the
insert and query methods fail with the `NOT_INITIALIZED` error and leave
the state unchanged; the manager operations are never consulted, so no null
handle is ever dereferenced (the response is the same for every choice of
`managerInsert` and `managerQuery`). -/
theorem closed_ops_not_initialized {M : Type} (mkManager : String → M)
    (managerInit : M → Bool)
    (managerInsert : M → String → List (EncodableValue × EncodableValue) →
      String → Int)
    (managerQuery : M → String → List EncodableValue)
    (st : PluginState M) (args : EncodableValue)
    (h : st.database_manager = none) :
    handleMethodCall mkManager managerInit managerInsert managerQuery
        st "insert" args =
      (.error "NOT_INITIALIZED" "Database not initialized", st)
    ∧ handleMethodCall mkManager managerInit managerInsert managerQuery
        st "query" args =
      (.error "NOT_INITIALIZED" "Database not initialized", st) := by
  constructor <;> simp [handleMethodCall, h]

/-- Witness for C4: concrete closed plugin state and concrete manager
operations. -/
theorem closed_ops_not_initialized_witness :
    handleMethodCall (fun (_ : String) => ()) (fun _ => true)
        (fun _ _ _ _ => 0) (fun _ _ => []) ⟨none⟩ "insert" .null =
      (.error "NOT_INITIALIZED" "Database not initialized",
        (⟨none⟩ : PluginState Unit))
    ∧ handleMethodCall (fun (_ : String) => ()) (fun _ => true)
        (fun _ _ _ _ => 0) (fun _ _ => []) ⟨none⟩ "query" .null =
      (.error "NOT_INITIALIZED" "Database not initialized",
        (⟨none⟩ : PluginState Unit)) :=
  closed_ops_not_initialized (fun _ => ()) (fun _ => true)
    (fun _ _ _ _ => 0) (fun _ _ => []) ⟨none⟩ .null rfl

/-- Claim C7: the close method is idempotent — it reports success from every
state (in particular twice in a row, and before any call to the
initialization method, i.e. from the initial Closed state), and after it
the handle is in the Closed state. -/
theorem close_idempotent {M : Type} (mkManager : String → M)
    (managerInit : M → Bool)
    (managerInsert : M → String → List (EncodableValue × EncodableValue) →
      String → Int)
    (managerQuery : M → String → List EncodableValue)
    (st : PluginState M) (args : EncodableValue) :
    (handleMethodCall mkManager managerInit managerInsert managerQuery
        st "close" args).1 = .success none
    ∧ (handleMethodCall mkManager managerInit managerInsert managerQuery
        st "close" args).2.database_manager = none
    ∧ handleMethodCall mkManager managerInit managerInsert managerQuery
        ((handleMethodCall mkManager managerInit managerInsert managerQuery
          st "close" args).2) "close" args =
      (.success none,
        (handleMethodCall mkManager managerInit managerInsert managerQuery
          st "close" args).2)
    ∧ handleMethodCall mkManager managerInit managerInsert managerQuery
        (⟨none⟩ : PluginState M) "close" args =
      (.success none, (⟨none⟩ : PluginState M)) := by
  obtain ⟨dm⟩ := st
  cases dm <;> simp [handleMethodCall]

/-- Claim C6: an insert targets the physical table literally named
`space ++ "_" ++ table`; an omitted (or non-string) space argument resolves
to the literal `"default"`, so the physical table is `default_<table>`.
The final conjunct observes, through a recording `managerInsert`, that the
insert branch of the method handler passes exactly `"default"` as the space
when the `space` argument is absent. -/
theorem insert_table_namespacing (t s : String)
    (data : List (EncodableValue × EncodableValue)) :
    GetPrefixedTableName t s = s ++ "_" ++ t
    ∧ GetPrefixedTableName "items" "user" = "user_items"
    ∧ resolveSpace none = "default"
    ∧ resolveSpace (some (.str s)) = s
    ∧ windowsInsertSql t s data =
        "INSERT INTO " ++ s ++ "_" ++ t ++ " (" ++
          (insertAccFold data).columns ++ ") VALUES (" ++
          (insertAccFold data).placeholders ++ ")"
    ∧ windowsInsertSql "items" "default"
        [(.str "name", .str "a"), (.str "qty", .int64 3)] =
        "INSERT INTO default_items (name, qty) VALUES (?, ?)"
    ∧ linuxInsertSql t (resolveSpace none) = "INSERT INTO default_" ++ t ++
        " DEFAULT VALUES"
    ∧ handleMethodCall (fun (_ : String) => ()) (fun _ => true)
        (fun _ _ _ space => if space = "default" then 5 else -1)
        (fun _ _ => []) ⟨some ()⟩ "insert"
        (.map [(.str "tableName", .str "items"), (.str "data", .map [])]) =
      (.success (some (.int64 5)), (⟨some ()⟩ : PluginState Unit)) := by
  exact ⟨rfl, rfl, rfl, rfl, rfl, rfl, rfl, rfl⟩

/-! ### Claim theorems: mutation path -/

/-- Claim C8: `Update` executes its statement exactly once — when
preparation succeeds the result is literally one application of `step`
followed by reading the engine's affected-row count (`changes`) of the
resulting state, with no batching and no retry — and when preparation fails
it returns zero with the database state unchanged.  The return value is a
bare count: no error text is surfaced on either path. -/
theorem update_single_step {Db Stmt : Type}
    (prepare : Db → String → Option Stmt) (step : Db → Stmt → Db)
    (changes : Db → Int) (db : Db) (sql : String)
    (arguments : List EncodableValue) (st : Stmt) :
    (prepare db sql = none →
      Update prepare step changes (some db) sql arguments = (0, some db))
    ∧ (prepare db sql = some st →
      Update prepare step changes (some db) sql arguments =
        (changes (step db st), some (step db st))) := by
  constructor <;> intro h <;> simp [Update, h]

/-- Toy engine for the mutation witnesses: the database state counts how
many times a statement was stepped, `prepare` accepts exactly one SQL text,
and `changes` reports the state. -/
def prepToy : Nat → String → Option Unit :=
  fun _ s => if s = "DELETE FROM t" then some () else none

/-- Toy engine step: one step increments the step counter. -/
def stepToy : Nat → Unit → Nat := fun n _ => n + 1

/-- Toy engine affected-row count: reads the counter. -/
def chgToy : Nat → Int := fun n => Int.ofNat n

/-- Witness for C8: on the toy engine, a failed preparation returns zero and
leaves the state at 0 steps; a successful preparation steps exactly once
(state goes from 0 to 1) and returns `changes` of that state. -/
theorem update_single_step_witness :
    Update prepToy stepToy chgToy (some 0) "NOT SQL" [] = (0, some 0)
    ∧ Update prepToy stepToy chgToy (some 0) "DELETE FROM t" [] =
      (1, some 1) :=
  ⟨(update_single_step prepToy stepToy chgToy 0 "NOT SQL" [] ()).1 rfl,
   (update_single_step prepToy stepToy chgToy 0 "DELETE FROM t" [] ()).2 rfl⟩

/-- Claim C9: `Delete` is the same function as `Update` — for every engine,
database state, SQL text and argument list it returns the same affected-row
count and produces the same database state. -/
theorem delete_eq_update {Db Stmt : Type}
    (prepare : Db → String → Option Stmt) (step : Db → Stmt → Db)
    (changes : Db → Int) (database : Option Db) (sql : String)
    (arguments : List EncodableValue) :
    Delete prepare step changes database sql arguments =
      Update prepare step changes database sql arguments := rfl

/-- Claim C10: `Update` and `Delete` never bind their `arguments` parameter:
for any two argument lists, the same SQL text, engine and database state,
the returned affected-row count and the resulting database state are
identical. -/
theorem update_ignores_arguments {Db Stmt : Type}
    (prepare : Db → String → Option Stmt) (step : Db → Stmt → Db)
    (changes : Db → Int) (database : Option Db) (sql : String)
    (args1 args2 : List EncodableValue) :
    Update prepare step changes database sql args1 =
      Update prepare step changes database sql args2
    ∧ Delete prepare step changes database sql args1 =
      Delete prepare step changes database sql args2 := ⟨rfl, rfl⟩

/-! ### Claim theorems: insert statement building -/

/-- Recording engine for the Linux insert evidence: preparation hands the
SQL text itself over as the statement. -/
def prepEcho : String → String → Option String := fun _ sql => some sql

/-- Recording engine step: reports DONE and stores the stepped statement
text as the new database state. -/
def stepEcho : String → String → StepResult × String :=
  fun _ st => (.done, st)

/-- Recording engine rowid: returns 7 exactly when the statement that was
prepared and stepped is the unparameterized `DEFAULT VALUES` text. -/
def rowidProbe : String → Int :=
  fun db => if db = "INSERT INTO default_items DEFAULT VALUES" then 7 else -5

/-- Claim C1 fails on the Linux implementation: for the one-field record
`{name: "a"}` the Linux `Insert` builds `INSERT INTO default_items DEFAULT
VALUES` — no column name, no positional placeholder (no `?` occurs in the
statement at all) — and steps exactly that statement without binding
anything, while the Windows `Insert` at the same input builds the
parameterized statement with one column, one placeholder and one bound
value, as the claim demands. -/
theorem linux_insert_never_parameterized :
    linuxInsertSql "items" "default" =
      "INSERT INTO default_items DEFAULT VALUES"
    ∧ '?' ∉ (linuxInsertSql "items" "default").data
    ∧ linuxInsert prepEcho stepEcho rowidProbe (some "") "items"
        (.map [(.str "name", .str "a")]) "default" = 7
    ∧ windowsInsertSql "items" "default" [(.str "name", .str "a")] =
        "INSERT INTO default_items (name) VALUES (?)"
    ∧ windowsInsertBinds [(.str "name", .str "a")] = [.text "a"] := by
  refine ⟨rfl, by decide, rfl, rfl, rfl⟩

/-- Claim C5 is false at a concrete input: calling insert with an empty
table name and an empty space string does not signal `InvalidArgument` —
the builder interpolates the empty names verbatim into the statement text,
and the method handler (here over an engine whose preparation fails, as it
would on the resulting malformed SQL) reports `INSERT_ERROR`, a different
code than `INVALID_ARGS`. -/
theorem insert_empty_names_no_invalid_argument :
    windowsInsertSql "" "" [(.str "name", .str "a")] =
      "INSERT INTO _ (name) VALUES (?)"
    ∧ windowsInsert (fun (_ : Unit) (_ : String) => (none : Option Unit))
        (fun _ st _ => (.error, st)) (fun _ => 0) (some ()) ""
        [(.str "name", .str "a")] "" = -1
    ∧ handleMethodCall (fun (_ : String) => ()) (fun _ => true)
        (fun _ _ _ _ => -1) (fun _ _ => []) ⟨some ()⟩ "insert"
        (.map [(.str "tableName", .str ""), (.str "data", .map []),
          (.str "space", .str "")]) =
      (.error "INSERT_ERROR" "Failed to insert data",
        (⟨some ()⟩ : PluginState Unit))
    ∧ "INSERT_ERROR" ≠ "INVALID_ARGS" := by
  refine ⟨rfl, rfl, rfl, by decide⟩

/-- Claim C5 as amended: the insert-statement builder performs no validation
at all — an empty table name or space string is interpolated verbatim into
the statement text exactly like any other name (no `InvalidArgument` is
signalled), and column names are likewise used verbatim with no legality
check.  The last conjunct shows that the handler's insert branch, for every
table and space string including empty ones, answers either success or
`INSERT_ERROR` according to the manager's rowid, never `INVALID_ARGS`. -/
theorem insert_builder_no_validation {M : Type} (mkManager : String → M)
    (managerInit : M → Bool)
    (managerInsert : M → String → List (EncodableValue × EncodableValue) →
      String → Int)
    (managerQuery : M → String → List EncodableValue) (dm : M)
    (t s : String) (data : List (EncodableValue × EncodableValue)) :
    windowsInsertSql t s data =
      "INSERT INTO " ++ s ++ "_" ++ t ++ " (" ++
        (insertAccFold data).columns ++ ") VALUES (" ++
        (insertAccFold data).placeholders ++ ")"
    ∧ windowsInsertSql "" "" [(.str "name", .str "a")] =
        "INSERT INTO _ (name) VALUES (?)"
    ∧ windowsInsertSql "items" "default"
        [(.str "x; DROP TABLE y", .null)] =
        "INSERT INTO default_items (x; DROP TABLE y) VALUES (?)"
    ∧ handleMethodCall mkManager managerInit managerInsert managerQuery
        ⟨some dm⟩ "insert"
        (.map [(.str "tableName", .str t), (.str "data", .map data),
          (.str "space", .str s)]) =
      if 0 ≤ managerInsert dm t data s then
        (.success (some (.int64 (managerInsert dm t data s))),
          (⟨some dm⟩ : PluginState M))
      else
        (.error "INSERT_ERROR" "Failed to insert data",
          (⟨some dm⟩ : PluginState M)) :=
  ⟨rfl, rfl, rfl, rfl⟩

end LocalStorageCache
